import Mathlib

/-!
Verification development for the block-toolbar component and the
link-control widget of the block editor.

Part 1 embeds the BlockToolbar component
(src/packages/block-editor/src/components/block-toolbar/index.js, the
implementation part of the file) as pure Lean functions over an abstract
store state.

Part 2 models the LinkControl widget.  Its implementation is not part of
the repository slice (only its test suite is included in the source
file), so the definitions there are modelled from the specification and
are marked as such in their doc comments.
-/

namespace BlockToolbar

/-- Block-list settings as returned by getBlockListSettings: the two
fields the component destructures, __experimentalMoverDirection and
__experimentalUIParts.hasMovers (each may be absent). -/
structure BlockListSettings where
  moverDirection : Option String
  uiPartsHasMovers : Option Bool
deriving DecidableEq, Repr

/-- The slice of the core/block-editor store the component selects from:
the selected block client ids and the selectors getBlockMode,
isBlockValid, getBlockRootClientId, getBlockListSettings. -/
structure StoreState where
  selectedBlockClientIds : List Nat
  isBlockValid : Nat → Bool
  getBlockMode : Nat → String
  getBlockRootClientId : Nat → Option Nat
  getBlockListSettings : Nat → Option BlockListSettings

/-- The object returned by the useSelect callback in BlockToolbar. -/
structure ToolbarSelect where
  blockClientIds : List Nat
  isValid : Option Bool
  mode : Option String
  moverDirection : Option String
  hasMovers : Bool
deriving DecidableEq, Repr

/-- Embedding of the useSelect callback of BlockToolbar: isValid and mode
are computed only when exactly one block is selected (null, i.e. none,
otherwise); the block-list settings are looked up on the root client id
of the first selected block, and hasMovers defaults to true when the
settings carry no value for it. -/
def toolbarSelect (s : StoreState) : ToolbarSelect :=
  let ids := s.selectedBlockClientIds
  let root : Option Nat := ids.head?.bind s.getBlockRootClientId
  let settings : Option BlockListSettings := root.bind s.getBlockListSettings
  { blockClientIds := ids
  , isValid :=
      if ids.length = 1 then some (s.isBlockValid ids.headI) else none
  , mode :=
      if ids.length = 1 then some (s.getBlockMode ids.headI) else none
  , moverDirection := settings.bind (fun bls => bls.moverDirection)
  , hasMovers := (settings.bind (fun bls => bls.uiPartsHasMovers)).getD true }

/-- What the BlockToolbar render function puts into its output tree.
moverRendered records whether the BlockMover element is present in the
output at all; moverOpacity and moverTransform are the animatedMoverStyles
applied to its wrapper. -/
structure ToolbarRender where
  moverRendered : Bool
  moverOpacity : Nat
  moverTransform : String
  switcherRendered : Bool
  formatSlotsRendered : Bool
  settingsMenuRendered : Bool
deriving DecidableEq, Repr

/-- Embedding of the BlockToolbar component body: shouldShowVisualToolbar
is isValid && mode === 'visual', isMultiToolbar is more than one selected
block, shouldShowMovers is getIsSmallerViewport() || (showMovers &&
hasMovers); the BlockMover is emitted unconditionally inside a wrapper
styled by animatedMoverStyles, the BlockSwitcher when
shouldShowVisualToolbar || isMultiToolbar, and the BlockControls.Slot and
BlockFormatControls.Slot exactly when shouldShowVisualToolbar &&
!isMultiToolbar. -/
def blockToolbar (s : StoreState) (smallerViewport showMovers : Bool) :
    ToolbarRender :=
  let sel := toolbarSelect s
  let shouldShowVisualToolbar :=
    sel.isValid == some true && sel.mode == some "visual"
  let isMultiToolbar := decide (sel.blockClientIds.length > 1)
  let shouldShowMovers := smallerViewport || (showMovers && sel.hasMovers)
  { moverRendered := true
  , moverOpacity := if shouldShowMovers then 1 else 0
  , moverTransform :=
      if shouldShowMovers then "translateX(0px)" else "translateX(100%)"
  , switcherRendered := shouldShowVisualToolbar || isMultiToolbar
  , formatSlotsRendered := shouldShowVisualToolbar && !isMultiToolbar
  , settingsMenuRendered := true }

end BlockToolbar

namespace LinkControl

/-- A link suggestion DTO: per the spec, link suggestion objects carry
title, url, type and id. -/
structure LinkSuggestion where
  id : Nat
  title : String
  url : String
  type : String
deriving DecidableEq, Repr

/-- One rendered option of the result listbox: the text it shows, the
type label it shows, and any hint text shown alongside. -/
structure ResultItem where
  itemText : String
  itemType : String
  hintText : String
deriving DecidableEq, Repr

/-- Whether the string s starts with the string p, computed on the
underlying character lists. -/
def strStartsWith (s p : String) : Bool :=
  p.data.isPrefixOf s.data

/-- Modelled from the spec: the LinkControl implementation is missing
from the repository slice (only its test suite is present); the spec says
a user may manually type a destination URL.  An input is URL-like, i.e.
direct entry, when it carries an explicit https:// or http:// scheme, a
www. prefix, a mailto: or tel: protocol, or is an #internal-anchor. -/
def isURLLike (s : String) : Bool :=
  strStartsWith s "https://" || strStartsWith s "http://" ||
  strStartsWith s "www." || strStartsWith s "mailto:" ||
  strStartsWith s "tel:" || strStartsWith s "#"

/-- Modelled from the spec (LinkControl implementation missing): the type
label of a direct-entry suggestion, mailto for mailto:, tel for tel:,
internal for #anchors, URL otherwise. -/
def directEntryType (s : String) : String :=
  if strStartsWith s "mailto:" then "mailto"
  else if strStartsWith s "tel:" then "tel"
  else if strStartsWith s "#" then "internal"
  else "URL"

/-- Modelled from the spec (LinkControl implementation missing): a term
could potentially be a valid URL when it contains no spaces. -/
def couldBeURL (s : String) : Bool := !(s.data.contains ' ')

/-- The hint shown on a direct-entry or URL fallback suggestion. -/
def pressEnterHint : String := "Press ENTER to add this link"

/-- Modelled from the spec (LinkControl implementation missing): the
single suggestion offered for a URL-like input, echoing the typed term
with its protocol type and the press-ENTER hint. -/
def directEntryItem (term : String) : ResultItem :=
  ⟨term, directEntryType term, pressEnterHint⟩

/-- Modelled from the spec (LinkControl implementation missing): the
rendered option for an entity suggestion returned by the asynchronous
suggestion source. -/
def entityItem (e : LinkSuggestion) : ResultItem :=
  ⟨e.title, e.type, ""⟩

/-- Modelled from the spec (LinkControl implementation missing): the URL
fallback suggestion appended after entity results for a term that could
be a URL. -/
def urlFallbackItem (term : String) : ResultItem :=
  ⟨term, "URL", pressEnterHint⟩

/-- Modelled from the spec (LinkControl implementation missing): the
Create new entity option offered for a searched title. -/
def createEntityItem (term : String) : ResultItem :=
  ⟨term, "", "Create new"⟩

/-- Whether a rendered option is the Create new entity option. -/
def isCreateItem (r : ResultItem) : Bool := r.hintText == "Create new"

/-- Modelled from the spec (LinkControl implementation missing): the
number of initial suggestions shown for an empty input, set within
LinkControl. -/
def maxInitialSuggestions : Nat := 3

/-- Modelled from the spec (LinkControl implementation missing): the
result list computed for an input term once fetching has settled.  An
empty term shows the initial suggestions capped at maxInitialSuggestions;
a URL-like term is handled as manual entry with a single direct-entry
suggestion; otherwise the fetched entity suggestions are shown, a URL
fallback is appended when the term could be a URL, and with
showCreateEntity a Create new option is offered last. -/
def searchResults (showCreateEntity : Bool) (term : String)
    (fetched : List LinkSuggestion) : List ResultItem :=
  if term = "" then (fetched.take maxInitialSuggestions).map entityItem
  else if isURLLike term then [directEntryItem term]
  else
    fetched.map entityItem
      ++ (if couldBeURL term then [urlFallbackItem term] else [])
      ++ (if showCreateEntity then [createEntityItem term] else [])

/-- Modelled from the spec (LinkControl implementation missing): the
component state driving the search box, as reconstructed from the spec's
description of incremental search-as-you-type against an asynchronous
suggestion source.  fetchCount counts invocations of the suggestion
source; isFetching is true between issuing a request and its resolution;
fetched holds the last resolved entity suggestions; highlightedIndex is
the aria-selected option, none when no option is highlighted. -/
structure LCState where
  showInitialSuggestions : Bool
  showCreateEntity : Bool
  inputValue : String
  isFetching : Bool
  fetchCount : Nat
  fetched : List LinkSuggestion
  highlightedIndex : Option Nat
deriving DecidableEq, Repr

/-- Events driving the LinkControl state: a re-render with no input
change, a change of the input value, resolution of the pending fetch,
and the DOWN and UP keys in the search input. -/
inductive LCEvent
  | rerender
  | changeInput (s : String)
  | resolveFetch (rs : List LinkSuggestion)
  | pressDown
  | pressUp
deriving DecidableEq, Repr

/-- Modelled from the spec (LinkControl implementation missing): mounting
the control with an empty input; with showInitialSuggestions the
suggestion source is invoked once for the initial suggestions, otherwise
nothing is fetched. -/
def lcInit (showInit showCreate : Bool) : LCState :=
  if showInit then
    { showInitialSuggestions := showInit, showCreateEntity := showCreate
    , inputValue := "", isFetching := true, fetchCount := 1
    , fetched := [], highlightedIndex := none }
  else
    { showInitialSuggestions := showInit, showCreateEntity := showCreate
    , inputValue := "", isFetching := false, fetchCount := 0
    , fetched := [], highlightedIndex := none }

/-- The options currently rendered in the listbox: nothing while a fetch
is pending, otherwise the searchResults for the current input. -/
def displayedResults (st : LCState) : List ResultItem :=
  if st.isFetching then []
  else searchResults st.showCreateEntity st.inputValue st.fetched

/-- The loading spinner is shown exactly while a fetch is pending. -/
def spinnerShown (st : LCState) : Bool := st.isFetching

/-- Modelled from the spec (LinkControl implementation missing): the
label of the result list, Recently updated for the initial suggestions of
an empty input. -/
def resultsLabel (st : LCState) : String :=
  if st.inputValue = "" then "Recently updated"
  else String.append "Search results for " st.inputValue

/-- Modelled from the spec (LinkControl implementation missing): an input
change clears the highlight and updates the suggestions: deleting back to
empty re-fetches the initial suggestions when they are enabled (and just
clears the results otherwise); a URL-like value is handled as direct
entry without invoking the suggestion source; any other value invokes
the suggestion source. -/
def stepChange (st : LCState) (s : String) : LCState :=
  if s = "" then
    if st.showInitialSuggestions then
      { st with
          inputValue := s
          isFetching := true
          fetchCount := st.fetchCount + 1
          highlightedIndex := none }
    else
      { st with
          inputValue := s
          isFetching := false
          fetched := []
          highlightedIndex := none }
  else if isURLLike s then
    { st with
        inputValue := s
        isFetching := true
        highlightedIndex := none }
  else
    { st with
        inputValue := s
        isFetching := true
        fetchCount := st.fetchCount + 1
        highlightedIndex := none }

/-- Modelled from the spec (LinkControl implementation missing): the DOWN
key steps into the result list, highlighting the first option when none
is highlighted and otherwise moving down one option, capped at the last
option. -/
def stepDown (st : LCState) : LCState :=
  if (displayedResults st).length = 0 then st
  else
    match st.highlightedIndex with
    | none => { st with highlightedIndex := some 0 }
    | some i =>
        let cap := (displayedResults st).length - 1
        { st with highlightedIndex := some (min (i + 1) cap) }

/-- Modelled from the spec (LinkControl implementation missing): the UP
key moves the highlight up one option, capped at the first option; with
no highlight it does nothing. -/
def stepUp (st : LCState) : LCState :=
  match st.highlightedIndex with
  | none => st
  | some i => { st with highlightedIndex := some (i - 1) }

/-- One step of the LinkControl state machine. -/
def lcStep (st : LCState) : LCEvent → LCState
  | LCEvent.rerender => st
  | LCEvent.changeInput s => stepChange st s
  | LCEvent.resolveFetch rs =>
      { st with isFetching := false, fetched := rs }
  | LCEvent.pressDown => stepDown st
  | LCEvent.pressUp => stepUp st

/-- Run a list of events from a given state. -/
def lcRunFrom (st : LCState) (events : List LCEvent) : LCState :=
  events.foldl lcStep st

/-- Run a list of events from a freshly mounted control. -/
def lcRun (showInit showCreate : Bool) (events : List LCEvent) : LCState :=
  lcRunFrom (lcInit showInit showCreate) events

/-- The indices of rendered options that carry aria-selected, i.e. are
highlighted. -/
def highlightedOptions (st : LCState) : List Nat :=
  (List.range (displayedResults st).length).filter
    (fun i => st.highlightedIndex == some i)

/-- A concrete settled search state used to exercise the keyboard
navigation: a non-URL-like term with two fetched entity suggestions and
no pending fetch. -/
def sampleSearchState : LCState :=
  { showInitialSuggestions := false
  , showCreateEntity := false
  , inputValue := "Hello"
  , isFetching := false
  , fetchCount := 1
  , fetched := [⟨1, "A", "/a", "page"⟩, ⟨2, "B", "/b", "page"⟩]
  , highlightedIndex := none }

/-- The element of the document holding focus: inside the LinkControl
container, the document body, or some other element identified by id. -/
inductive ActiveElement
  | inLinkControl
  | documentBody
  | custom (id : Nat)
deriving DecidableEq, Repr

/-- Modelled from the spec (LinkControl implementation missing): the
onChange handler runs on commit and may programmatically move focus to an
element of its own choosing. -/
def applyOnChange (effect : Option Nat) (a : ActiveElement) :
    ActiveElement :=
  match effect with
  | none => a
  | some t => ActiveElement.custom t

/-- Modelled from the spec (LinkControl implementation missing): after a
commit the control re-anchors focus inside its container only when focus
has fallen to the document body (as it does when the editing view
unmounts); focus deliberately placed elsewhere is left alone. -/
def restoreFocus (a : ActiveElement) : ActiveElement :=
  match a with
  | ActiveElement.documentBody => ActiveElement.inLinkControl
  | x => x

/-- Modelled from the spec (LinkControl implementation missing):
committing a suggestion via ENTER and form submission: the editing view
unmounts (dropping focus to the document body), the onChange handler runs
with its optional focus effect, then the control's focus restoration
runs. -/
def commitLink (effect : Option Nat) : ActiveElement :=
  restoreFocus (applyOnChange effect ActiveElement.documentBody)

/-- A node of the rendered selected-link view. -/
inductive UINode
  | textNode (s : String)
  | anchor (href : String) (inner : String)
  | buttonNode (label : String)
deriving DecidableEq, Repr

/-- Modelled from the spec (LinkControl implementation missing): the
selected-link (non-editing) view rendered for the current value: an
anchor to the value's url showing its title, the type label, and an Edit
control. -/
def renderCurrentLink (v : LinkSuggestion) : List UINode :=
  [ UINode.anchor v.url v.title
  , UINode.textNode v.type
  , UINode.buttonNode "Edit" ]

/-- Whether the rendered view displays the given text. -/
def viewHasText (nodes : List UINode) (s : String) : Bool :=
  nodes.any (fun n =>
    match n with
    | UINode.textNode t => t == s
    | UINode.anchor _ inner => inner == s
    | UINode.buttonNode l => l == s)

/-- Whether the rendered view contains an anchor with the given href. -/
def viewHasAnchorHref (nodes : List UINode) (href : String) : Bool :=
  nodes.any (fun n =>
    match n with
    | UINode.anchor h _ => h == href
    | _ => false)

end LinkControl

open BlockToolbar

/-- C1: the BlockControls.Slot and BlockFormatControls.Slot are rendered
iff exactly one block is selected, that block is valid and its mode is
'visual'; with zero or more than one selected block, isValid and mode are
computed as none (null) and the slots are not rendered. -/
theorem formatSlots_iff_single_valid_visual (s : StoreState)
    (v m : Bool) :
    ((blockToolbar s v m).formatSlotsRendered = true ↔
      ∃ b, s.selectedBlockClientIds = [b] ∧ s.isBlockValid b = true ∧
        s.getBlockMode b = "visual") ∧
    (s.selectedBlockClientIds.length ≠ 1 →
      (toolbarSelect s).isValid = none ∧ (toolbarSelect s).mode = none ∧
      (blockToolbar s v m).formatSlotsRendered = false) := by
  obtain ⟨ids, valid, mode, root, settings⟩ := s
  constructor
  · match ids with
    | [] =>
        simp [blockToolbar, toolbarSelect]
    | [b] =>
        simp [blockToolbar, toolbarSelect, List.headI]
    | a :: b :: rest =>
        simp [blockToolbar, toolbarSelect]
  · intro h
    match ids with
    | [] =>
        simp [blockToolbar, toolbarSelect]
    | [b] =>
        simp at h
    | a :: b :: rest =>
        simp [blockToolbar, toolbarSelect]

/-- C1 witness: at a store with two selected blocks (both valid and in
visual mode) the select computes none for isValid and mode and the format
slots are not rendered; with a single valid visual block they are. -/
theorem formatSlots_iff_single_valid_visual_witness :
    (toolbarSelect
        ⟨[1, 2], fun _ => true, fun _ => "visual", fun _ => none,
          fun _ => none⟩).isValid = none ∧
    (toolbarSelect
        ⟨[1, 2], fun _ => true, fun _ => "visual", fun _ => none,
          fun _ => none⟩).mode = none ∧
    (blockToolbar
        ⟨[1, 2], fun _ => true, fun _ => "visual", fun _ => none,
          fun _ => none⟩ false false).formatSlotsRendered = false := by
  have h :=
    (formatSlots_iff_single_valid_visual
      ⟨[1, 2], fun _ => true, fun _ => "visual", fun _ => none,
        fun _ => none⟩ false false).2 (by decide)
  exact h

/-- C2 counterexample: with a single selected block, a regular viewport
and no show-movers gesture, shouldShowMovers is false yet the BlockMover
element is still present in the rendered output (only its wrapper is
styled invisible), so the mover is not absent when the conditions fail. -/
theorem mover_not_absent_cex :
    (false ||
        (false &&
          (toolbarSelect
              ⟨[1], fun _ => true, fun _ => "visual", fun _ => none,
                fun _ => none⟩).hasMovers)) = false ∧
    ¬ ((blockToolbar
          ⟨[1], fun _ => true, fun _ => "visual", fun _ => none,
            fun _ => none⟩ false false).moverRendered = false) := by
  constructor
  · rfl
  · intro h
    simp [blockToolbar] at h

/-- C2 amended: the BlockMover is always present in the toolbar output;
what the shouldShowMovers condition (smaller viewport, or show-movers
gesture with movers enabled) controls is the animatedMoverStyles of its
wrapper, fully visible (opacity 1, translateX(0px)) when the condition
holds and hidden (opacity 0, translateX(100%)) otherwise. -/
theorem mover_always_rendered_styles (s : StoreState) (v m : Bool) :
    (blockToolbar s v m).moverRendered = true ∧
    ((blockToolbar s v m).moverOpacity,
        (blockToolbar s v m).moverTransform) =
      (if v || (m && (toolbarSelect s).hasMovers) then
        (1, "translateX(0px)")
      else (0, "translateX(100%)")) := by
  refine ⟨rfl, ?_⟩
  rcases Bool.eq_false_or_eq_true (v || (m && (toolbarSelect s).hasMovers))
    with h | h <;>
    simp [blockToolbar, h]


open LinkControl

/-- C3: for every URL-like input (explicit https:// or http:// scheme, a
www. prefix, a mailto: or tel: protocol, or a #internal-anchor) the
control treats it as manual link entry: the result list is exactly one
suggestion, carrying the typed term, the matching protocol type (URL for
schemes and www), and the press-ENTER hint. -/
theorem urlLike_single_direct_suggestion (term : String) (c : Bool)
    (fetched : List LinkSuggestion)
    (h : isURLLike term = true) :
    searchResults c term fetched = [directEntryItem term] ∧
    (directEntryItem term).itemText = term ∧
    (directEntryItem term).itemType = directEntryType term ∧
    (directEntryItem term).hintText = "Press ENTER to add this link" := by
  have hne : term ≠ "" := by
    intro he
    rw [he] at h
    exact absurd h (by decide)
  refine ⟨?_, rfl, rfl, rfl⟩
  simp [searchResults, hne, h]

/-- C3 witness: the concrete URL-like input https://make.wordpress.org
yields exactly its single direct-entry suggestion. -/
theorem urlLike_single_direct_suggestion_witness :
    isURLLike "https://make.wordpress.org" = true ∧
    searchResults false "https://make.wordpress.org" [] =
      [directEntryItem "https://make.wordpress.org"] :=
  ⟨by decide,
    (urlLike_single_direct_suggestion "https://make.wordpress.org" false []
      (by decide)).1⟩

/-- C4: for every non-URL-like non-empty search term (with the create
option off) the result list is exactly the entity suggestions returned by
the suggestion source, with one URL fallback suggestion appended as the
last result iff the term contains no spaces; a term with spaces gets no
fallback entry. -/
theorem nonURL_entity_results_with_fallback (term : String)
    (fetched : List LinkSuggestion)
    (h1 : isURLLike term = false) (h2 : term ≠ "") :
    searchResults false term fetched =
      fetched.map entityItem ++
        (if term.data.contains ' ' then [] else [urlFallbackItem term]) := by
  simp only [searchResults, h1, h2, couldBeURL, if_neg h2, Bool.false_eq_true,
    if_false, List.append_nil]
  rcases Bool.eq_false_or_eq_true (term.data.contains ' ') with hc | hc <;>
    simp [hc]

/-- C4 witness: for the concrete term Hello world (which has a space) the
result list is exactly the fetched entity suggestions, with no URL
fallback appended. -/
theorem nonURL_entity_results_with_fallback_witness :
    isURLLike "Hello world" = false ∧
    "Hello world" ≠ "" ∧
    searchResults false "Hello world" [⟨1, "Hello Page", "/hello", "page"⟩] =
      List.map entityItem [⟨1, "Hello Page", "/hello", "page"⟩] ++
        (if ("Hello world").data.contains ' ' then []
         else [urlFallbackItem "Hello world"]) :=
  ⟨by decide, by decide,
    nonURL_entity_results_with_fallback "Hello world"
      [⟨1, "Hello Page", "/hello", "page"⟩] (by decide) (by decide)⟩

/-- C6: when a suggestion is committed via ENTER and form submission and
the onChange handler leaves focus alone, focus is retained inside the
LinkControl container; when the handler programmatically moves focus to
an element of its own, the control does not forcefully regain focus and
the handler's target remains the active element. -/
theorem focus_after_commit :
    commitLink none = ActiveElement.inLinkControl ∧
    ∀ t : Nat, commitLink (some t) = ActiveElement.custom t :=
  ⟨rfl, fun _ => rfl⟩

/-- C9: for every link suggestion provided as the value, the
selected-link (non-editing) view displays the suggestion's title and
type, contains an anchor whose href equals the suggestion's url, and
offers an Edit control. -/
theorem currentLink_view (v : LinkSuggestion) :
    viewHasText (renderCurrentLink v) v.title = true ∧
    viewHasText (renderCurrentLink v) v.type = true ∧
    viewHasAnchorHref (renderCurrentLink v) v.url = true ∧
    viewHasText (renderCurrentLink v) "Edit" = true := by
  refine ⟨?_, ?_, ?_, ?_⟩ <;>
    simp [viewHasText, viewHasAnchorHref, renderCurrentLink]

/-- C10: even with showCreateEntity enabled, the Create new option
appears in the result list iff the input is non-empty and not a
direct-entry form (not a URL with scheme, a www. address, a mailto: or
tel: value, or an #anchor). -/
theorem create_option_iff (term : String) (fetched : List LinkSuggestion) :
    ((searchResults true term fetched).any isCreateItem = true) ↔
      (term ≠ "" ∧ isURLLike term = false) := by
  constructor
  · intro h
    by_cases h0 : term = ""
    · rw [h0] at h
      simp [searchResults] at h
      obtain ⟨x, hx, hcx⟩ := h
      rcases List.mem_map.mp (List.take_subset _ _ hx) with ⟨e, he, rfl⟩
      exact absurd hcx (by simp [isCreateItem, entityItem])
    · by_cases h1 : isURLLike term = true
      · simp [searchResults, h0, h1, isCreateItem, directEntryItem,
          pressEnterHint] at h
      · exact ⟨h0, Bool.eq_false_iff.mpr h1⟩
  · rintro ⟨h0, h1⟩
    simp only [searchResults, if_neg h0, h1]
    simp [isCreateItem, createEntityItem]

/-- Auxiliary: filtering the range below n by a predicate that holds for
k alone leaves exactly the singleton k, when k < n. -/
theorem filter_range_unique (p : Nat → Bool) (k n : Nat) (h : k < n)
    (hp : ∀ i, p i = true ↔ i = k) :
    (List.range n).filter p = [k] := by
  induction n with
  | zero => exact absurd h (by omega)
  | succ m ih =>
      rw [List.range_succ, List.filter_append]
      rcases Nat.lt_succ_iff_lt_or_eq.mp h with h2 | h2
      · rw [ih h2]
        have hm : p m = false := by
          rcases Bool.eq_false_or_eq_true (p m) with hb | hb
          · exact absurd ((hp m).mp hb) (by omega)
          · exact hb
        simp [hm]
      · have he : (List.range m).filter p = [] := by
          refine List.filter_eq_nil_iff.mpr ?_
          intro a ha
          have haa : a < m := List.mem_range.mp ha
          intro hpa
          have := (hp a).mp hpa
          omega
        have hm : p m = true := (hp m).mpr h2.symm
        rw [he]
        simp [hm, h2]

/-- Auxiliary: with option k highlighted and k in range, exactly the
option k carries aria-selected. -/
theorem highlightedOptions_eq_single (st : LCState) (k : Nat)
    (h : k < (displayedResults st).length) :
    highlightedOptions { st with highlightedIndex := some k } = [k] := by
  refine filter_range_unique _ k _ h ?_
  intro i
  rw [beq_iff_eq]
  simp only [Option.some.injEq]
  exact eq_comm

/-- C5: over a result list of at least two options with no highlight,
DOWN highlights the first option, DOWN again the second, and UP returns
to the first; after each such key press exactly one option (the stated
one) carries aria-selected. -/
theorem keyboard_navigation (st : LCState)
    (h0 : st.highlightedIndex = none)
    (h2 : 2 ≤ (displayedResults st).length) :
    (lcStep st LCEvent.pressDown).highlightedIndex = some 0 ∧
    highlightedOptions (lcStep st LCEvent.pressDown) = [0] ∧
    (lcStep (lcStep st LCEvent.pressDown) LCEvent.pressDown).highlightedIndex
      = some 1 ∧
    highlightedOptions
      (lcStep (lcStep st LCEvent.pressDown) LCEvent.pressDown) = [1] ∧
    (lcStep (lcStep (lcStep st LCEvent.pressDown) LCEvent.pressDown)
        LCEvent.pressUp).highlightedIndex = some 0 ∧
    highlightedOptions
      (lcStep (lcStep (lcStep st LCEvent.pressDown) LCEvent.pressDown)
        LCEvent.pressUp) = [0] := by
  have hne : ¬ (displayedResults st).length = 0 := by omega
  have e1 : lcStep st LCEvent.pressDown
      = { st with highlightedIndex := some 0 } := by
    simp [lcStep, stepDown, hne, h0]
  have hd1 : displayedResults { st with highlightedIndex := some 0 }
      = displayedResults st := rfl
  have hmin : min (0 + 1) ((displayedResults st).length - 1) = 1 := by
    omega
  have e2 : lcStep { st with highlightedIndex := some 0 } LCEvent.pressDown
      = { st with highlightedIndex := some 1 } := by
    simp [lcStep, stepDown, hd1, hne, hmin]
  have e3 : lcStep { st with highlightedIndex := some 1 } LCEvent.pressUp
      = { st with highlightedIndex := some 0 } := by
    simp [lcStep, stepUp]
  rw [e1, e2, e3]
  refine ⟨rfl, ?_, rfl, ?_, rfl, ?_⟩
  · exact highlightedOptions_eq_single st 0 (by omega)
  · exact highlightedOptions_eq_single st 1 (by omega)
  · exact highlightedOptions_eq_single st 0 (by omega)

/-- C5 witness: on the concrete sample search state (three rendered
options) DOWN highlights option 0 and a second DOWN highlights exactly
option 1. -/
theorem keyboard_navigation_witness :
    sampleSearchState.highlightedIndex = none ∧
    2 ≤ (displayedResults sampleSearchState).length ∧
    (lcStep sampleSearchState LCEvent.pressDown).highlightedIndex
      = some 0 ∧
    highlightedOptions
      (lcStep (lcStep sampleSearchState LCEvent.pressDown)
        LCEvent.pressDown) = [1] :=
  ⟨rfl, by decide,
    (keyboard_navigation sampleSearchState rfl (by decide)).1,
    (keyboard_navigation sampleSearchState rfl (by decide)).2.2.2.1⟩

/-- C7: after typing a non-empty term a request is pending: the loading
spinner is shown and zero results are displayed; once the pending request
resolves, the spinner is gone. -/
theorem loading_spinner (st : LCState) (term : String) (h : term ≠ "")
    (rs : List LinkSuggestion) :
    spinnerShown (lcStep st (LCEvent.changeInput term)) = true ∧
    displayedResults (lcStep st (LCEvent.changeInput term)) = [] ∧
    spinnerShown
      (lcStep (lcStep st (LCEvent.changeInput term))
        (LCEvent.resolveFetch rs)) = false := by
  rcases Bool.eq_false_or_eq_true (isURLLike term) with hu | hu <;>
    simp [lcStep, stepChange, h, hu, spinnerShown, displayedResults]

/-- C7 witness: typing the concrete term Hello into a freshly mounted
control shows the spinner with no results, and resolving the request
removes the spinner. -/
theorem loading_spinner_witness :
    "Hello" ≠ "" ∧
    spinnerShown
      (lcStep (lcInit false false) (LCEvent.changeInput "Hello")) = true ∧
    displayedResults
      (lcStep (lcInit false false) (LCEvent.changeInput "Hello")) = [] ∧
    spinnerShown
      (lcStep (lcStep (lcInit false false) (LCEvent.changeInput "Hello"))
        (LCEvent.resolveFetch [])) = false :=
  ⟨by decide,
    (loading_spinner (lcInit false false) "Hello" (by decide) []).1,
    (loading_spinner (lcInit false false) "Hello" (by decide) []).2.1,
    (loading_spinner (lcInit false false) "Hello" (by decide) []).2.2⟩

/-- Auxiliary: re-renders without an input change leave the LinkControl
state untouched. -/
theorem lcRunFrom_rerenders (st : LCState) (k : Nat) :
    lcRunFrom st (List.replicate k LCEvent.rerender) = st := by
  induction k with
  | zero => rfl
  | succ m ih =>
      rw [List.replicate_succ]
      exact ih

/-- C8: mounted with showInitialSuggestions and an empty input, the
suggestion source has been invoked exactly once however many re-renders
happen without an input change; once the fetch resolves (to at least 3
suggestions) exactly 3 initial suggestions are displayed under the
Recently updated label; typing a value and deleting it back to empty
restores this state once the re-issued fetch resolves. -/
theorem initial_suggestions_once_and_restored (c : Bool) (k : Nat)
    (rs rs2 : List LinkSuggestion) (t : String)
    (h3 : 3 ≤ rs.length) (ht : t ≠ "") (h3b : 3 ≤ rs2.length) :
    (lcRun true c (List.replicate k LCEvent.rerender)).fetchCount = 1 ∧
    (lcRun true c (List.replicate k LCEvent.rerender ++
        [LCEvent.resolveFetch rs])).fetchCount = 1 ∧
    (displayedResults (lcRun true c (List.replicate k LCEvent.rerender ++
        [LCEvent.resolveFetch rs]))).length = 3 ∧
    resultsLabel (lcRun true c (List.replicate k LCEvent.rerender ++
        [LCEvent.resolveFetch rs])) = "Recently updated" ∧
    (displayedResults (lcRunFrom
        (lcRun true c (List.replicate k LCEvent.rerender ++
          [LCEvent.resolveFetch rs]))
        [LCEvent.changeInput t, LCEvent.resolveFetch rs,
          LCEvent.changeInput "", LCEvent.resolveFetch rs2])).length = 3 ∧
    resultsLabel (lcRunFrom
        (lcRun true c (List.replicate k LCEvent.rerender ++
          [LCEvent.resolveFetch rs]))
        [LCEvent.changeInput t, LCEvent.resolveFetch rs,
          LCEvent.changeInput "", LCEvent.resolveFetch rs2])
      = "Recently updated" := by
  have hsplit : lcRun true c (List.replicate k LCEvent.rerender ++
      [LCEvent.resolveFetch rs])
      = lcStep (lcInit true c) (LCEvent.resolveFetch rs) := by
    unfold lcRun lcRunFrom
    rw [List.foldl_append]
    have hr := lcRunFrom_rerenders (lcInit true c) k
    unfold lcRunFrom at hr
    rw [hr]
    rfl
  refine ⟨?_, ?_, ?_, ?_, ?_, ?_⟩
  · rw [lcRun, lcRunFrom_rerenders]
    simp [lcInit]
  · rw [hsplit]
    simp [lcStep, lcInit]
  · rw [hsplit]
    simp [lcStep, lcInit, displayedResults, searchResults,
      maxInitialSuggestions]
    omega
  · rw [hsplit]
    simp [lcStep, lcInit, resultsLabel]
  · rw [hsplit]
    rcases Bool.eq_false_or_eq_true (isURLLike t) with hu | hu <;>
      simp [lcRunFrom, lcStep, stepChange, ht, hu, lcInit, displayedResults,
        searchResults, maxInitialSuggestions] <;>
      omega
  · rw [hsplit]
    rcases Bool.eq_false_or_eq_true (isURLLike t) with hu | hu <;>
      simp [lcRunFrom, lcStep, stepChange, ht, hu, lcInit, resultsLabel]

/-- C8 witness: a concrete run with one re-render and four fetched
suggestions shows exactly 3 initial suggestions labelled Recently
updated, and typing wp then deleting it restores that state. -/
theorem initial_suggestions_once_and_restored_witness :
    3 ≤ ([⟨1, "A", "/a", "page"⟩, ⟨2, "B", "/b", "page"⟩,
      ⟨3, "C", "/c", "page"⟩, ⟨4, "D", "/d", "page"⟩] :
        List LinkSuggestion).length ∧
    "wp" ≠ "" ∧
    (lcRun true false
        (List.replicate 1 LCEvent.rerender)).fetchCount = 1 ∧
    (displayedResults (lcRunFrom
        (lcRun true false (List.replicate 1 LCEvent.rerender ++
          [LCEvent.resolveFetch [⟨1, "A", "/a", "page"⟩,
            ⟨2, "B", "/b", "page"⟩, ⟨3, "C", "/c", "page"⟩,
            ⟨4, "D", "/d", "page"⟩]]))
        [LCEvent.changeInput "wp",
          LCEvent.resolveFetch [⟨1, "A", "/a", "page"⟩,
            ⟨2, "B", "/b", "page"⟩, ⟨3, "C", "/c", "page"⟩,
            ⟨4, "D", "/d", "page"⟩],
          LCEvent.changeInput "",
          LCEvent.resolveFetch [⟨1, "A", "/a", "page"⟩,
            ⟨2, "B", "/b", "page"⟩, ⟨3, "C", "/c", "page"⟩,
            ⟨4, "D", "/d", "page"⟩]])).length = 3 :=
  ⟨by decide, by decide,
    (initial_suggestions_once_and_restored false 1
      [⟨1, "A", "/a", "page"⟩, ⟨2, "B", "/b", "page"⟩,
        ⟨3, "C", "/c", "page"⟩, ⟨4, "D", "/d", "page"⟩]
      [⟨1, "A", "/a", "page"⟩, ⟨2, "B", "/b", "page"⟩,
        ⟨3, "C", "/c", "page"⟩, ⟨4, "D", "/d", "page"⟩]
      "wp" (by decide) (by decide) (by decide)).1,
    (initial_suggestions_once_and_restored false 1
      [⟨1, "A", "/a", "page"⟩, ⟨2, "B", "/b", "page"⟩,
        ⟨3, "C", "/c", "page"⟩, ⟨4, "D", "/d", "page"⟩]
      [⟨1, "A", "/a", "page"⟩, ⟨2, "B", "/b", "page"⟩,
        ⟨3, "C", "/c", "page"⟩, ⟨4, "D", "/d", "page"⟩]
      "wp" (by decide) (by decide) (by decide)).2.2.2.2.1⟩
